import Mathlib

/-!
# Shallow embedding of the `gosqlrwdb` read/write-splitting router

This file models the Go package `gosqlrwdb`: a router placed in front of one
primary database connection and a list of read replicas.  Connection handles
(`*sql.DB` pointers in Go) are modelled as `Option Nat`: `none` is the nil
pointer, `some n` a handle identity.  Go panics (nil dereference, division by
zero, `panic(err)` calls) are modelled by `Option`-valued results, where the
outer `none` denotes a fault.  The package-level mutable flags
(`DoValidateNew`, `DisableReplicaAutoFailover`, the maintenance environment
variable) are passed as explicit boolean parameters, since Go reads them at
call time.  Delegation to a handle is modelled by returning the target handle
together with the forwarded query text, instead of performing I/O.
-/

namespace Gosqlrwdb

/-- A Go `*sql.DB` pointer: `none` is the nil pointer. -/
abbrev Conn := Option Nat

/-- The error taxonomy of the package (file `errors.go`). -/
inductive Err where
  | PrimaryInMaintenance
  | NotProvidedPrimary
  | NotProvidedReplicas
  | NotQuerySQL
  | NoReplicaAvailable
deriving DecidableEq, Repr

/-- The `DB` struct.  The `sync.RWMutex` is dropped (the embedding is
sequential); `stopHeartbeat` is dropped (signalling is modelled in `Close`'s
result).  `unavailableReplicas` is a Go map keyed by handle pointers; it is
modelled as a list used only through membership. -/
structure DB where
  master : Conn
  readreplicas : List Conn
  count : Int
  needHeartbeat : Bool
  unavailableReplicas : List Conn
  primaryInMaintence : Bool
deriving DecidableEq, Repr

/-- `IsQuerySqlFunc` (default value): `len(query) >= 6 &&
strings.ToLower(query[:6]) == "select"`.  Query text is a list of
characters. -/
def IsQuerySqlFunc (query : List Char) : Bool :=
  decide (6 ≤ query.length) && ((query.take 6).map Char.toLower == "select".data)

/-- `validateQuery`: an error when `IsQuerySqlFunc` rejects the query. -/
def validateQuery (query : List Char) : Option Err :=
  if !IsQuerySqlFunc query then some .NotQuerySQL else none

/-- `validateNew`: nil master, empty replica list, or a nil replica entry is
rejected. -/
def validateNew (master : Conn) (readreplicas : List Conn) : Option Err :=
  if master == none then some .NotProvidedPrimary
  else if readreplicas.length == 0 then some .NotProvidedReplicas
  else if readreplicas.any (fun r => r == none) then some .NotProvidedReplicas
  else none

/-- `heartbeat`: the freshly built set of replicas whose ping fails.
`pingOK r = true` means `r.Ping()` returns nil. -/
def heartbeat (pingOK : Conn → Bool) (readreplicas : List Conn) : List Conn :=
  readreplicas.filter (fun r => !pingOK r)

/-- Result of `New`: the constructed `DB` plus whether the `time.Ticker` was
created (`ticker != nil` when the monitor goroutine starts). -/
structure NewResult where
  db : DB
  tickerCreated : Bool
deriving DecidableEq, Repr

/-- `New`.  A `panic(err)` on failed validation is modelled as `.error err`.
When heartbeat is needed, one synchronous health pass runs before the `DB` is
returned; otherwise the unavailable set starts empty and no ticker is
created. -/
def New (doValidateNew disableReplicaAutoFailover primaryInMaintenanceEnv : Bool)
    (pingOK : Conn → Bool) (master : Conn) (readreplicas : List Conn) :
    Except Err NewResult :=
  match (if doValidateNew then validateNew master readreplicas else none) with
  | some e => .error e
  | none =>
    let needHeartbeat := !disableReplicaAutoFailover
    let unavailableReplicas := if needHeartbeat then heartbeat pingOK readreplicas else []
    .ok { db := { master := master
                  readreplicas := readreplicas
                  count := -1
                  needHeartbeat := needHeartbeat
                  unavailableReplicas := unavailableReplicas
                  primaryInMaintence := primaryInMaintenanceEnv }
          tickerCreated := needHeartbeat }

/-- First action of the monitor goroutine started by `New`: the `select`
statement evaluates the channel operand `ticker.C`.  When no ticker was
created (`ticker` is the nil pointer), this field access is a nil-pointer
dereference: a fault, modelled as `none`. -/
def monitorSelectTickerChan (tickerCreated : Bool) : Option Unit :=
  if tickerCreated then some () else none

/-- Body of one monitor tick: rebuild the unavailable set in full from a fresh
health pass over the configured replicas, then replace the old set wholesale
(under the write lock in Go). -/
def monitorTick (pingOK : Conn → Bool) (db : DB) : DB :=
  { db with unavailableReplicas := heartbeat pingOK db.readreplicas }

/-- `readReplicaRoundRobinHelper`: increment the cursor, index modulo the
replica count.  On an empty replica list Go faults (`count % 0` is an integer
division by zero): modelled as `none`. -/
def readReplicaRoundRobinHelper (db : DB) : Option (DB × Conn) :=
  if db.readreplicas.length == 0 then none
  else
    let count := db.count + 1
    let idx := (count % (db.readreplicas.length : Int)).toNat
    some ({ db with count := count }, db.readreplicas.getD idx none)

/-- The `for try := 1; try <= len(db.readreplicas)` loop of
`readReplicaRoundRobin`, with the remaining number of attempts as fuel: each
attempt advances the cursor and skips the selected replica when the
unavailable set contains it. -/
def rrLoop (db : DB) : Nat → Option (DB × Except Err Conn)
  | 0 => some (db, .error .NoReplicaAvailable)
  | n + 1 =>
    match readReplicaRoundRobinHelper db with
    | none => none
    | some (db1, r) =>
      if db1.needHeartbeat && db1.unavailableReplicas.contains r then rrLoop db1 n
      else some (db1, .ok r)

/-- `readReplicaRoundRobin`, with the variadic `bypassAutoFailover` argument
as a list. -/
def readReplicaRoundRobin (doValidateNew : Bool) (db : DB)
    (bypassAutoFailover : List Bool) : Option (DB × Except Err Conn) :=
  if !doValidateNew && db.readreplicas.length == 0 then
    some (db, .error .NotProvidedReplicas)
  else if !db.needHeartbeat
      || (decide (0 < bypassAutoFailover.length) && bypassAutoFailover.headD false) then
    match readReplicaRoundRobinHelper db with
    | none => none
    | some (db1, r) => some (db1, .ok r)
  else rrLoop db db.readreplicas.length

/-- Delegating a call to a handle: the target handle and the query text
forwarded to it, verbatim.  On a nil handle the Go method call faults. -/
def delegate (r : Conn) (query : List Char) : Option (Conn × List Char) :=
  match r with
  | none => none
  | some m => some (some m, query)

/-- `Query`: validate read-only, then health-checked round-robin selection,
then delegate. -/
def Query (doValidateNew : Bool) (db : DB) (query : List Char) :
    Option (DB × Except Err (Conn × List Char)) :=
  match validateQuery query with
  | some e => some (db, .error e)
  | none =>
    match readReplicaRoundRobin doValidateNew db [] with
    | none => none
    | some (db1, .error e) => some (db1, .error e)
    | some (db1, .ok r) =>
      match delegate r query with
      | none => none
      | some out => some (db1, .ok out)

/-- `QueryContext`.  `usePrimary` is `UsePrimaryFromContext(ctx)`.  Note the
source validates the query BEFORE consulting the force-primary directive. -/
def QueryContext (doValidateNew : Bool) (db : DB) (usePrimary : Bool)
    (query : List Char) : Option (DB × Except Err (Conn × List Char)) :=
  match validateQuery query with
  | some e => some (db, .error e)
  | none =>
    if usePrimary && !db.primaryInMaintence then
      if !doValidateNew && db.master == none then some (db, .error .NotProvidedPrimary)
      else
        match delegate db.master query with
        | none => none
        | some out => some (db, .ok out)
    else
      match readReplicaRoundRobin doValidateNew db [] with
      | none => none
      | some (db1, .error e) => some (db1, .error e)
      | some (db1, .ok r) =>
        match delegate r query with
        | none => none
        | some out => some (db1, .ok out)

/-- `QueryRow`: no validation; round robin with `bypassAutoFailover = true`;
a selection error is `panic(err)` in Go, a fault. -/
def QueryRow (doValidateNew : Bool) (db : DB) (query : List Char) :
    Option (DB × Conn × List Char) :=
  match readReplicaRoundRobin doValidateNew db [true] with
  | none => none
  | some (_, .error _) => none
  | some (db1, .ok r) =>
    match delegate r query with
    | none => none
    | some (c, q) => some (db1, c, q)

/-- `QueryRowContext`: no validation; honors force-primary; the bypassing
round robin otherwise; all error paths are `panic` in Go, faults here. -/
def QueryRowContext (doValidateNew : Bool) (db : DB) (usePrimary : Bool)
    (query : List Char) : Option (DB × Conn × List Char) :=
  if usePrimary && !db.primaryInMaintence then
    if !doValidateNew && db.master == none then none
    else
      match delegate db.master query with
      | none => none
      | some (c, q) => some (db, c, q)
  else
    match readReplicaRoundRobin doValidateNew db [true] with
    | none => none
    | some (_, .error _) => none
    | some (db1, .ok r) =>
      match delegate r query with
      | none => none
      | some (c, q) => some (db1, c, q)

/-- `Exec`: always targets primary; maintenance check first, then the lazy
absence check. -/
def Exec (doValidateNew : Bool) (db : DB) (query : List Char) :
    Option (Except Err (Conn × List Char)) :=
  if db.primaryInMaintence then some (.error .PrimaryInMaintenance)
  else if !doValidateNew && db.master == none then some (.error .NotProvidedPrimary)
  else
    match delegate db.master query with
    | none => none
    | some out => some (.ok out)

/-- `ExecContext`: same routing as `Exec` (the context does not affect it). -/
def ExecContext (doValidateNew : Bool) (db : DB) (query : List Char) :
    Option (Except Err (Conn × List Char)) :=
  if db.primaryInMaintence then some (.error .PrimaryInMaintenance)
  else if !doValidateNew && db.master == none then some (.error .NotProvidedPrimary)
  else
    match delegate db.master query with
    | none => none
    | some out => some (.ok out)

/-- `Begin`: always targets primary. -/
def Begin (doValidateNew : Bool) (db : DB) : Option (Except Err Conn) :=
  if db.primaryInMaintence then some (.error .PrimaryInMaintenance)
  else if !doValidateNew && db.master == none then some (.error .NotProvidedPrimary)
  else
    match db.master with
    | none => none
    | some m => some (.ok (some m))

/-- `BeginTx`: always targets primary. -/
def BeginTx (doValidateNew : Bool) (db : DB) : Option (Except Err Conn) :=
  if db.primaryInMaintence then some (.error .PrimaryInMaintenance)
  else if !doValidateNew && db.master == none then some (.error .NotProvidedPrimary)
  else
    match db.master with
    | none => none
    | some m => some (.ok (some m))

/-- `Prepare`: read-only queries resolve to a replica (health-checked), all
others to primary with the maintenance/absence checks. -/
def Prepare (doValidateNew : Bool) (db : DB) (query : List Char) :
    Option (DB × Except Err (Conn × List Char)) :=
  if IsQuerySqlFunc query then
    match readReplicaRoundRobin doValidateNew db [] with
    | none => none
    | some (db1, .error e) => some (db1, .error e)
    | some (db1, .ok r) =>
      match delegate r query with
      | none => none
      | some out => some (db1, .ok out)
  else
    if db.primaryInMaintence then some (db, .error .PrimaryInMaintenance)
    else if !doValidateNew && db.master == none then some (db, .error .NotProvidedPrimary)
    else
      match delegate db.master query with
      | none => none
      | some out => some (db, .ok out)

/-- `PrepareContext`: a replica only for read-only queries without the
force-primary directive; primary otherwise. -/
def PrepareContext (doValidateNew : Bool) (db : DB) (usePrimary : Bool)
    (query : List Char) : Option (DB × Except Err (Conn × List Char)) :=
  if IsQuerySqlFunc query && !usePrimary then
    match readReplicaRoundRobin doValidateNew db [] with
    | none => none
    | some (db1, .error e) => some (db1, .error e)
    | some (db1, .ok r) =>
      match delegate r query with
      | none => none
      | some out => some (db1, .ok out)
  else
    if db.primaryInMaintence then some (db, .error .PrimaryInMaintenance)
    else if !doValidateNew && db.master == none then some (db, .error .NotProvidedPrimary)
    else
      match delegate db.master query with
      | none => none
      | some out => some (db, .ok out)

/-- An abstract close-error identity (the message of a failed `Close()`). -/
abbrev ErrMsg := Nat

/-- Outcome of `DB.Close`: the stop signal was delivered, the handles whose
`Close()` was invoked in attempt order, and the collected close errors in that
order (`multierr`: the combined error is nil iff this list is empty). -/
structure CloseResult where
  stopSignalled : Bool
  closed : List Conn
  errs : List ErrMsg
deriving DecidableEq, Repr

/-- Close each handle of a list in order, collecting errors and continuing
past failures.  `closeErr c = some e` means closing `c` fails with `e`.
Closing a nil handle faults. -/
def closeAll (closeErr : Conn → Option ErrMsg) :
    List Conn → Option (List Conn × List ErrMsg)
  | [] => some ([], [])
  | c :: rest =>
    if c == none then none
    else
      match closeAll closeErr rest with
      | none => none
      | some (cs, es) => some (c :: cs, (closeErr c).toList ++ es)

/-- `Close`: close the stop channel (signalling the monitor), then close
primary (skipped in maintenance) and every replica in list order. -/
def Close (closeErr : Conn → Option ErrMsg) (db : DB) : Option CloseResult :=
  let targets := (if db.primaryInMaintence then [] else [db.master]) ++ db.readreplicas
  match closeAll closeErr targets with
  | none => none
  | some (cs, es) => some { stopSignalled := true, closed := cs, errs := es }

/-- Reachable states of a router: a successful construction, followed by any
interleaving of monitor ticks (with per-tick ping outcomes) and replica
selections. -/
inductive Reachable (doValidateNew disableRAF pim : Bool) : DB → Prop where
  | init (pingOK : Conn → Bool) (master : Conn) (readreplicas : List Conn)
      (res : NewResult)
      (h : New doValidateNew disableRAF pim pingOK master readreplicas = .ok res) :
      Reachable doValidateNew disableRAF pim res.db
  | tick (pingOK : Conn → Bool) (db : DB)
      (h : Reachable doValidateNew disableRAF pim db) :
      Reachable doValidateNew disableRAF pim (monitorTick pingOK db)
  | select (db db1 : DB) (bypass : List Bool) (r : Except Err Conn)
      (h : Reachable doValidateNew disableRAF pim db)
      (hs : readReplicaRoundRobin doValidateNew db bypass = some (db1, r)) :
      Reachable doValidateNew disableRAF pim db1

/-- `selectMany`: a sequence of consecutive health-checked selections,
collecting the outcome of each call. -/
def selectMany (doValidateNew : Bool) (db : DB) :
    Nat → Option (DB × List (Except Err Conn))
  | 0 => some (db, [])
  | n + 1 =>
    (readReplicaRoundRobin doValidateNew db []).bind fun x =>
      (selectMany doValidateNew x.1 n).map fun y => (y.1, x.2 :: y.2)

/-! ## Sample router states used by concrete witnesses -/

/-- A router over primary handle `0` and one replica `1`, as `New` builds it
when every ping succeeds. -/
def dbOneReplica : DB :=
  { master := some 0, readreplicas := [some 1], count := -1,
    needHeartbeat := true, unavailableReplicas := [], primaryInMaintence := false }

/-- A router over primary `0` and replicas `1`, `2`, fresh from `New`. -/
def dbTwoReplicas : DB :=
  { master := some 0, readreplicas := [some 1, some 2], count := -1,
    needHeartbeat := true, unavailableReplicas := [], primaryInMaintence := false }

/-- Like `dbTwoReplicas` but with both replicas marked unavailable. -/
def dbTwoReplicasDown : DB :=
  { master := some 0, readreplicas := [some 1, some 2], count := -1,
    needHeartbeat := true, unavailableReplicas := [some 1, some 2],
    primaryInMaintence := false }

/-- `dbOneReplica` with the maintenance flag set. -/
def dbMaintenance : DB :=
  { master := some 0, readreplicas := [some 1], count := -1,
    needHeartbeat := true, unavailableReplicas := [], primaryInMaintence := true }

/-- A router whose primary handle is the nil pointer. -/
def dbNoPrimary : DB :=
  { master := none, readreplicas := [some 1], count := -1,
    needHeartbeat := true, unavailableReplicas := [], primaryInMaintence := false }

/-- A router with an empty replica list. -/
def dbNoReplicas : DB :=
  { master := some 0, readreplicas := [], count := -1,
    needHeartbeat := true, unavailableReplicas := [], primaryInMaintence := false }

/-! ## The query classifier -/

/-- The classifier accepts exactly the queries whose lowercased text begins
with the six characters of `select`. -/
lemma isQuerySql_eq_true_iff (q : List Char) :
    IsQuerySqlFunc q = true ↔ "select".data <+: q.map Char.toLower := by
  have hsel : ("select".data).length = 6 := by decide
  unfold IsQuerySqlFunc
  rw [Bool.and_eq_true, decide_eq_true_iff, beq_iff_eq, List.map_take]
  constructor
  · rintro ⟨h6, heq⟩
    rw [List.prefix_iff_eq_take, hsel]
    exact heq.symm
  · intro h
    have hlen := h.length_le
    rw [List.length_map] at hlen
    rw [List.prefix_iff_eq_take, hsel] at h
    exact ⟨by omega, h.symm⟩

/-- C5: the default classifier returns true iff the query, case-insensitively,
begins with the keyword `select`, with no whitespace trimming: a query whose
first character is whitespace classifies as not read-only, and any query
shorter than 6 characters classifies as not read-only. -/
theorem isQuerySqlFunc_spec (q : List Char) :
    (IsQuerySqlFunc q = true ↔ "select".data <+: q.map Char.toLower) ∧
    ((q.headD 'a').isWhitespace = true → IsQuerySqlFunc q = false) ∧
    (q.length < 6 → IsQuerySqlFunc q = false) := by
  refine ⟨isQuerySql_eq_true_iff q, ?_, ?_⟩
  · intro hws
    cases q with
    | nil => simp at hws
    | cons c cs =>
      rw [List.headD_cons] at hws
      by_contra hne
      rw [Bool.not_eq_false] at hne
      have hpre := (isQuerySql_eq_true_iff _).1 hne
      rw [show "select".data = 's' :: "elect".data from by decide, List.map_cons,
        List.cons_prefix_cons] at hpre
      have hc : Char.toLower c ≠ 's' := by
        simp only [Char.isWhitespace, Bool.or_eq_true, decide_eq_true_eq] at hws
        rcases hws with ((rfl | rfl) | rfl) | rfl <;> decide
      exact hc hpre.1.symm
  · intro h6
    unfold IsQuerySqlFunc
    have : decide (6 ≤ q.length) = false := by simp; omega
    rw [this, Bool.false_and]

/-- C5 witness: the classifier at concrete inputs. -/
theorem isQuerySqlFunc_spec_witness :
    (IsQuerySqlFunc "SELECT * from mytable".data = true ↔
      "select".data <+: ("SELECT * from mytable".data).map Char.toLower) ∧
    ((" select 1".data.headD 'a').isWhitespace = true →
      IsQuerySqlFunc " select 1".data = false) ∧
    ("selec".data.length < 6 → IsQuerySqlFunc "selec".data = false) :=
  ⟨(isQuerySqlFunc_spec "SELECT * from mytable".data).1,
   (isQuerySqlFunc_spec " select 1".data).2.1,
   (isQuerySqlFunc_spec "selec".data).2.2⟩

/-! ## Round-robin selection -/

/-- On a nonempty replica list the helper advances the cursor and picks the
handle at the cursor modulo the replica count. -/
lemma helper_nonempty (db : DB) (hne : db.readreplicas ≠ []) :
    readReplicaRoundRobinHelper db =
      some ({ db with count := db.count + 1 },
        db.readreplicas.getD
          ((db.count + 1) % (db.readreplicas.length : Int)).toNat none) := by
  unfold readReplicaRoundRobinHelper
  rw [if_neg]
  simp only [beq_iff_eq, List.length_eq_zero]
  exact hne

/-- With an empty unavailable set, one health-checked selection is exactly one
helper step, whatever the heartbeat flag. -/
lemma rr_empty_unavailable (dvn : Bool) (db : DB) (hne : db.readreplicas ≠ [])
    (hunav : db.unavailableReplicas = []) :
    readReplicaRoundRobin dvn db [] =
      some ({ db with count := db.count + 1 },
        .ok (db.readreplicas.getD
          ((db.count + 1) % (db.readreplicas.length : Int)).toNat none)) := by
  unfold readReplicaRoundRobin
  have hlen0 : (db.readreplicas.length == 0) = false := by
    simp only [beq_eq_false_iff_ne, ne_eq, List.length_eq_zero]
    exact hne
  rw [hlen0, Bool.and_false, if_neg (by simp)]
  cases hnh : db.needHeartbeat with
  | false =>
    rw [if_pos (by simp [hnh]), helper_nonempty db hne]
    simp [hnh]
  | true =>
    rw [if_neg (by simp [hnh])]
    cases hl : db.readreplicas.length with
    | zero => exact absurd (List.length_eq_zero.mp hl) hne
    | succ k =>
      simp only [rrLoop]
      rw [helper_nonempty db hne]
      simp [hnh, hunav, hl]

/-- A pure round-robin run: with an empty unavailable set and the cursor at
`m - 1`, `n` consecutive health-checked selections return the handles at
indices `m, m+1, ...` modulo the replica count, advancing the cursor by
`n`. -/
lemma selectMany_pure (dvn : Bool) :
    ∀ (n : Nat) (db : DB) (m : Nat), db.count = (m : Int) - 1 →
      db.unavailableReplicas = [] → db.readreplicas ≠ [] →
      selectMany dvn db n =
        some ({ db with count := (m : Int) - 1 + n },
          (List.range n).map (fun i =>
            .ok (db.readreplicas.getD ((m + i) % db.readreplicas.length) none)))
  | 0, db, m, hc, hu, hne => by
      simp only [selectMany, List.range_zero, List.map_nil, Nat.cast_zero, add_zero]
      rw [← hc]
  | n + 1, db, m, hc, hu, hne => by
      have hm : db.count + 1 = (m : Int) := by rw [hc]; ring
      have hidx : ((db.count + 1) % (db.readreplicas.length : Int)).toNat
          = m % db.readreplicas.length := by
        rw [hm, Int.ofNat_mod_ofNat, Int.toNat_ofNat]
      have hih := selectMany_pure dvn n { db with count := db.count + 1 } (m + 1)
        (by rw [show ({ db with count := db.count + 1 } : DB).count = db.count + 1
              from rfl, hm]; push_cast; ring) hu hne
      have hlist : (List.range (n + 1)).map
            (fun i => (Except.ok
              (db.readreplicas.getD ((m + i) % db.readreplicas.length) none) :
                Except Err Conn))
          = .ok (db.readreplicas.getD (m % db.readreplicas.length) none)
            :: (List.range n).map (fun i =>
              .ok (db.readreplicas.getD ((m + 1 + i) % db.readreplicas.length) none)) := by
        simp only [List.range_succ_eq_map, List.map_cons, List.map_map, Nat.add_zero]
        congr 1
        exact List.map_congr_left (fun i _ => by
          simp only [Function.comp_apply]
          rw [show m + Nat.succ i = m + 1 + i from by omega])
      simp only [selectMany]
      rw [rr_empty_unavailable dvn db hne hu]
      simp only [Option.bind, hih, Option.map, hidx, hlist]
      rw [show (m : Int) - 1 + ((n + 1 : Nat) : Int) = ((m + 1 : Nat) : Int) - 1 + (n : Nat)
        from by push_cast; ring]

/-- Reading a list at indices `0, 1, ..., 2N-1` modulo `N` yields the list
twice over. -/
lemma map_getD_range_twice (rs : List Conn) :
    (List.range (2 * rs.length)).map (fun i => rs.getD (i % rs.length) none) =
      rs ++ rs := by
  have hget : ∀ j (h : j < rs.length), rs.getD (j % rs.length) none = rs[j] := by
    intro j h
    rw [Nat.mod_eq_of_lt h, List.getD_eq_getElem?_getD, List.getElem?_eq_getElem h,
      Option.getD_some]
  rw [two_mul, List.range_add, List.map_append, List.map_map]
  congr 1
  · apply List.ext_getElem
    · simp
    · intro j h1 h2
      simp only [List.getElem_map, List.getElem_range]
      exact hget j (by simpa using h1)
  · apply List.ext_getElem
    · simp
    · intro j h1 h2
      simp only [List.getElem_map, List.getElem_range, Function.comp_apply]
      rw [Nat.add_mod_left]
      exact hget j (by simpa using h1)

/-- C2: on a freshly constructed router (cursor at `-1`, empty unavailable
set, `N ≥ 1` replicas) the first selection returns the replica at index 0,
and `2N` consecutive selections return the replicas at indices
`0, ..., N-1, 0, ..., N-1` in strict cyclical order: the replica list twice
over, each index appearing exactly twice. -/
theorem roundRobin_cycle (dvn : Bool) (db : DB)
    (hcount : db.count = -1) (hunav : db.unavailableReplicas = [])
    (hne : db.readreplicas ≠ []) :
    selectMany dvn db 1 =
      some ({ db with count := 0 }, [.ok (db.readreplicas.getD 0 none)]) ∧
    selectMany dvn db (2 * db.readreplicas.length) =
      some ({ db with count := 2 * (db.readreplicas.length : Int) - 1 },
        (db.readreplicas ++ db.readreplicas).map Except.ok) := by
  have hc0 : db.count = ((0 : Nat) : Int) - 1 := by rw [hcount]; simp
  constructor
  · rw [selectMany_pure dvn 1 db 0 hc0 hunav hne]
    norm_num [show List.range 1 = [0] from rfl]
  · rw [selectMany_pure dvn (2 * db.readreplicas.length) db 0 hc0 hunav hne,
      ← map_getD_range_twice db.readreplicas, List.map_map]
    rw [show ((0 : Nat) : Int) - 1 + ((2 * db.readreplicas.length : Nat) : Int)
        = 2 * (db.readreplicas.length : Int) - 1 from by push_cast; ring]
    simp [Function.comp]

/-- C2 witness: the cycle at a concrete two-replica router. -/
theorem roundRobin_cycle_witness :
    selectMany false dbTwoReplicas 1 =
      some ({ dbTwoReplicas with count := 0 },
        [.ok (dbTwoReplicas.readreplicas.getD 0 none)]) ∧
    selectMany false dbTwoReplicas (2 * dbTwoReplicas.readreplicas.length) =
      some ({ dbTwoReplicas with count := 2 * (dbTwoReplicas.readreplicas.length : Int) - 1 },
        (dbTwoReplicas.readreplicas ++ dbTwoReplicas.readreplicas).map Except.ok) :=
  roundRobin_cycle false dbTwoReplicas rfl rfl (by decide)

/-- The helper's pick is always one of the configured replicas. -/
lemma helper_pick_mem (db : DB) (hne : db.readreplicas ≠ []) :
    db.readreplicas.getD
      ((db.count + 1) % (db.readreplicas.length : Int)).toNat none
      ∈ db.readreplicas := by
  have hpos : 0 < db.readreplicas.length := List.length_pos.mpr hne
  have hposI : (0 : Int) < (db.readreplicas.length : Int) := by exact_mod_cast hpos
  have hnn : 0 ≤ (db.count + 1) % (db.readreplicas.length : Int) :=
    Int.emod_nonneg _ (by omega)
  have hlt : (db.count + 1) % (db.readreplicas.length : Int) <
      (db.readreplicas.length : Int) := Int.emod_lt_of_pos _ hposI
  have hidx : ((db.count + 1) % (db.readreplicas.length : Int)).toNat <
      db.readreplicas.length := by omega
  rw [List.getD_eq_getElem?_getD, List.getElem?_eq_getElem hidx, Option.getD_some]
  exact List.getElem_mem _

/-- When every configured replica is unavailable, every attempt of the
selection loop skips its pick, so `k` remaining attempts advance the cursor
`k` times and end in `NoReplicaAvailable`. -/
lemma rrLoop_all_unavailable :
    ∀ (k : Nat) (db : DB), db.readreplicas ≠ [] → db.needHeartbeat = true →
      (∀ r ∈ db.readreplicas, r ∈ db.unavailableReplicas) →
      rrLoop db k =
        some ({ db with count := db.count + k }, .error .NoReplicaAvailable)
  | 0, db, hne, hhb, hall => by simp [rrLoop]
  | k + 1, db, hne, hhb, hall => by
      have hmem : db.readreplicas.getD
          ((db.count + 1) % (db.readreplicas.length : Int)).toNat none
          ∈ db.unavailableReplicas := hall _ (helper_pick_mem db hne)
      have hih := rrLoop_all_unavailable k { db with count := db.count + 1 } hne hhb hall
      simp only [hhb] at hih
      simp only [rrLoop]
      rw [helper_nonempty db hne]
      simp [hhb]
      rw [hih]
      rw [show db.count + 1 + (k : Int) = db.count + ((k : Int) + 1) from by ring]
      rw [if_pos (by simpa using hmem)]

/-- C3: with `N ≥ 1` replicas all unavailable and auto-failover active,
health-checked selection returns the error `NoReplicaAvailable` after exactly
`N` internal attempts (the cursor advances by exactly `N`), and returns no
handle at all -- in particular never the primary -- whatever the primary
handle or its health. -/
theorem allUnavailable_noReplica (dvn : Bool) (db : DB)
    (hne : db.readreplicas ≠ []) (hhb : db.needHeartbeat = true)
    (hall : ∀ r ∈ db.readreplicas, r ∈ db.unavailableReplicas) :
    readReplicaRoundRobin dvn db [] =
      some ({ db with count := db.count + db.readreplicas.length },
        .error .NoReplicaAvailable) := by
  unfold readReplicaRoundRobin
  have hlen0 : (db.readreplicas.length == 0) = false := by
    simp only [beq_eq_false_iff_ne, ne_eq, List.length_eq_zero]; exact hne
  rw [hlen0, Bool.and_false, if_neg (by simp)]
  rw [if_neg (by simp [hhb])]
  exact rrLoop_all_unavailable db.readreplicas.length db hne hhb hall

/-- C3 witness: both replicas of a two-replica router down. -/
theorem allUnavailable_noReplica_witness :
    readReplicaRoundRobin false dbTwoReplicasDown [] =
      some ({ dbTwoReplicasDown with count :=
          dbTwoReplicasDown.count + dbTwoReplicasDown.readreplicas.length },
        .error .NoReplicaAvailable) :=
  allUnavailable_noReplica false dbTwoReplicasDown (by decide) rfl (by decide)

/-! ## Routing: force primary, maintenance, per-call validation -/

/-- C1 counterexample: a non-read-only query under the force-primary
directive, primary healthy and not in maintenance, still returns
`NotQuerySQL`: `QueryContext` validates the query before consulting the
directive, so the read-only validation is not skipped. -/
theorem queryContext_forcePrimary_counterexample :
    IsQuerySqlFunc "delete from mytable".data = false ∧
    dbOneReplica.primaryInMaintence = false ∧
    QueryContext false dbOneReplica true "delete from mytable".data =
      some (dbOneReplica, .error .NotQuerySQL) :=
  ⟨by decide, rfl, rfl⟩

/-- C1 (amended): with the force-primary directive and primary not in
maintenance, `QueryContext` routes queries that pass the read-only validation
to the primary handle, with no replica selection and the router state
unchanged; but the validation runs first and is not skipped: a query the
classifier rejects returns `NotQuerySQL` even under the directive. -/
theorem queryContext_forcePrimary (dvn : Bool) (db : DB) (q : List Char)
    (m : Nat) (hm : db.master = some m) (hpim : db.primaryInMaintence = false) :
    (IsQuerySqlFunc q = true →
      QueryContext dvn db true q = some (db, .ok (some m, q))) ∧
    (IsQuerySqlFunc q = false →
      QueryContext dvn db true q = some (db, .error .NotQuerySQL)) := by
  constructor
  · intro hq
    simp [QueryContext, validateQuery, hq, hpim, hm, delegate]
  · intro hq
    simp [QueryContext, validateQuery, hq]

/-- C1 witness: a read-only query is forced to the primary handle `0`; a
write query is rejected despite the directive. -/
theorem queryContext_forcePrimary_witness :
    QueryContext false dbOneReplica true "select * from mytable".data =
      some (dbOneReplica, .ok (some 0, "select * from mytable".data)) ∧
    QueryContext false dbOneReplica true "update mytable set a".data =
      some (dbOneReplica, .error .NotQuerySQL) :=
  ⟨(queryContext_forcePrimary false dbOneReplica "select * from mytable".data 0
      rfl rfl).1 (by decide),
   (queryContext_forcePrimary false dbOneReplica "update mytable set a".data 0
      rfl rfl).2 (by decide)⟩

/-- C4 counterexample: with validation enabled (`DoValidateNew` true) and an
empty replica list, selection does not fail with `NotProvidedReplicas`: the
per-call guard is skipped and the exhausted attempt loop yields
`NoReplicaAvailable`. -/
theorem emptyReplicas_counterexample :
    readReplicaRoundRobin true dbNoReplicas [] =
      some (dbNoReplicas, .error .NoReplicaAvailable) ∧
    Err.NoReplicaAvailable ≠ Err.NotProvidedReplicas :=
  ⟨rfl, by decide⟩

/-- C4 (amended): the missing-replica condition is never silently ignored,
but the roles are the reverse of the claim: with validation relaxed
(`DoValidateNew` false) an empty replica list makes `readReplicaRoundRobin`
fail per call with `NotProvidedReplicas`; with validation enabled the
condition is instead rejected at construction, `New` failing (Go: panicking)
with `NotProvidedReplicas`. -/
theorem emptyReplicas_amended (db : DB) (bypass : List Bool)
    (hempty : db.readreplicas = []) (m : Nat) (dsbl pim : Bool)
    (pingOK : Conn → Bool) :
    readReplicaRoundRobin false db bypass =
      some (db, .error .NotProvidedReplicas) ∧
    New true dsbl pim pingOK (some m) [] = .error .NotProvidedReplicas := by
  constructor
  · simp [readReplicaRoundRobin, hempty]
  · rfl

/-- C4 witness: the per-call error on a concrete replica-less router and the
constructor failure on a concrete invocation. -/
theorem emptyReplicas_amended_witness :
    readReplicaRoundRobin false dbNoReplicas [] =
      some (dbNoReplicas, .error .NotProvidedReplicas) ∧
    New true false false (fun _ => true) (some 0) [] =
      .error .NotProvidedReplicas :=
  emptyReplicas_amended dbNoReplicas [] rfl 0 false false (fun _ => true)

/-- C6: with the maintenance flag set, `Exec`, `ExecContext`, `Begin`,
`BeginTx`, and `Prepare`/`PrepareContext` on a non-read-only query all fail
with `PrimaryInMaintenance` before any handle is produced, whatever the
primary handle -- so the maintenance check takes precedence over the absence
check; with maintenance clear, primary absent and validation relaxed, the
same operations fail with `NotProvidedPrimary`. -/
theorem maintenance_blocks_primary (dvn : Bool) (db : DB) (q : List Char)
    (up : Bool) (hq : IsQuerySqlFunc q = false) :
    (db.primaryInMaintence = true →
      Exec dvn db q = some (.error .PrimaryInMaintenance) ∧
      ExecContext dvn db q = some (.error .PrimaryInMaintenance) ∧
      Begin dvn db = some (.error .PrimaryInMaintenance) ∧
      BeginTx dvn db = some (.error .PrimaryInMaintenance) ∧
      Prepare dvn db q = some (db, .error .PrimaryInMaintenance) ∧
      PrepareContext dvn db up q = some (db, .error .PrimaryInMaintenance)) ∧
    (db.primaryInMaintence = false → db.master = none → dvn = false →
      Exec dvn db q = some (.error .NotProvidedPrimary) ∧
      ExecContext dvn db q = some (.error .NotProvidedPrimary) ∧
      Begin dvn db = some (.error .NotProvidedPrimary) ∧
      BeginTx dvn db = some (.error .NotProvidedPrimary) ∧
      Prepare dvn db q = some (db, .error .NotProvidedPrimary) ∧
      PrepareContext dvn db up q = some (db, .error .NotProvidedPrimary)) := by
  constructor
  · intro hpim
    refine ⟨?_, ?_, ?_, ?_, ?_, ?_⟩ <;>
      simp [Exec, ExecContext, Begin, BeginTx, Prepare, PrepareContext, hpim, hq]
  · rintro hpim hmn rfl
    refine ⟨?_, ?_, ?_, ?_, ?_, ?_⟩ <;>
      simp [Exec, ExecContext, Begin, BeginTx, Prepare, PrepareContext,
        hpim, hq, hmn]

/-- C6 witness: a write query on a router in maintenance, and on a router
with a nil primary under relaxed validation. -/
theorem maintenance_blocks_primary_witness :
    Exec false dbMaintenance "delete from mytable".data =
      some (.error .PrimaryInMaintenance) ∧
    Begin false dbNoPrimary = some (.error .NotProvidedPrimary) :=
  ⟨((maintenance_blocks_primary false dbMaintenance "delete from mytable".data
      false (by decide)).1 rfl).1,
   ((maintenance_blocks_primary false dbNoPrimary "delete from mytable".data
      false (by decide)).2 rfl rfl rfl).2.2.1⟩

/-- C7, the code evaluated at the failing input: with the
disable-auto-failover flag set, `New` succeeds, sets `needHeartbeat` to
false, performs no initial health pass and creates no ticker -- yet the
monitor goroutine is still started, and its first `select` evaluates
`ticker.C` on the nil ticker: a nil-pointer dereference fault (`none`). -/
theorem disableAutoFailover_monitor_fault (pim : Bool) (pingOK : Conn → Bool)
    (master : Conn) (readreplicas : List Conn) :
    New false true pim pingOK master readreplicas =
      .ok { db := { master := master, readreplicas := readreplicas, count := -1,
                    needHeartbeat := false, unavailableReplicas := [],
                    primaryInMaintence := pim },
            tickerCreated := false } ∧
    monitorSelectTickerChan false = none :=
  ⟨rfl, rfl⟩

/-- Closing a list of non-nil handles attempts every close in order and
collects exactly the errors those closes produce. -/
lemma closeAll_no_nil (closeErr : Conn → Option ErrMsg) :
    ∀ (l : List Conn), (∀ c ∈ l, c ≠ none) →
      closeAll closeErr l = some (l, l.filterMap closeErr)
  | [], _ => rfl
  | c :: rest, h => by
      have hc : (c == none) = false := by
        simp only [beq_eq_false_iff_ne, ne_eq]
        exact h c (List.mem_cons_self c rest)
      have hrec := closeAll_no_nil closeErr rest
        (fun x hx => h x (List.mem_cons_of_mem c hx))
      simp only [closeAll, hc, Bool.false_eq_true, if_false, hrec,
        List.filterMap_cons]
      cases hce : closeErr c <;> simp

/-- C8: `Close` signals the monitor to stop, then closes the primary handle
(skipping it in maintenance) and every replica handle in list order,
attempting every close even after earlier failures, and returns exactly the
collected close errors -- the combined error is nil iff every attempted close
succeeded. -/
theorem close_collects_all (closeErr : Conn → Option ErrMsg) (db : DB)
    (hm : db.primaryInMaintence = false → db.master ≠ none)
    (hr : ∀ r ∈ db.readreplicas, r ≠ none) :
    Close closeErr db =
      some { stopSignalled := true,
             closed := (if db.primaryInMaintence then [] else [db.master])
               ++ db.readreplicas,
             errs := ((if db.primaryInMaintence then [] else [db.master])
               ++ db.readreplicas).filterMap closeErr } ∧
    (((if db.primaryInMaintence then [] else [db.master])
        ++ db.readreplicas).filterMap closeErr = [] ↔
      ((if db.primaryInMaintence then [] else [db.master])
        ++ db.readreplicas).all (fun c => (closeErr c).isNone) = true) := by
  have hall : ∀ c ∈ (if db.primaryInMaintence then [] else [db.master])
      ++ db.readreplicas, c ≠ none := by
    intro c hc
    rcases List.mem_append.mp hc with h1 | h2
    · cases hpim : db.primaryInMaintence with
      | true => rw [hpim] at h1; simp at h1
      | false =>
        rw [hpim] at h1
        simp at h1
        subst h1
        exact hm hpim
    · exact hr c h2
  constructor
  · simp only [Close]
    rw [closeAll_no_nil closeErr _ hall]
  · rw [List.filterMap_eq_nil_iff, List.all_eq_true]
    simp [Option.isNone_iff_eq_none]

/-- A close-error assignment: closing handles `0` and `1` fails with
message `7`, other closes succeed. -/
def closeErrSample : Conn → Option ErrMsg :=
  fun c => if c == some 0 || c == some 1 then some 7 else none

/-- C8 witness: of the three handles of a two-replica router, closing primary
`0` and replica `1` fails; replica `2` is still closed and both errors are
returned. -/
theorem close_collects_all_witness :
    Close closeErrSample dbTwoReplicas =
      some { stopSignalled := true,
             closed := (if dbTwoReplicas.primaryInMaintence then []
               else [dbTwoReplicas.master]) ++ dbTwoReplicas.readreplicas,
             errs := ((if dbTwoReplicas.primaryInMaintence then []
               else [dbTwoReplicas.master])
               ++ dbTwoReplicas.readreplicas).filterMap closeErrSample } ∧
    (((if dbTwoReplicas.primaryInMaintence then [] else [dbTwoReplicas.master])
        ++ dbTwoReplicas.readreplicas).filterMap closeErrSample = [] ↔
      ((if dbTwoReplicas.primaryInMaintence then [] else [dbTwoReplicas.master])
        ++ dbTwoReplicas.readreplicas).all
          (fun c => (closeErrSample c).isNone) = true) :=
  close_collects_all closeErrSample dbTwoReplicas (fun _ => by decide) (by decide)

/-- C10: `QueryRow` and `QueryRowContext` perform no read-only validation:
for any query text, read-only or not, they return the handle picked by the
health-check-bypassing round robin -- the plain cursor pick, even here where
the unavailable set is arbitrary -- or the primary under the force-primary
directive, with the query forwarded unmodified; no `NotQuerySQL` outcome is
possible (their result carries no error value at all), and the outcome is the
same for any two query texts. -/
theorem queryRow_no_validation (dvn : Bool) (db : DB) (q q2 : List Char)
    (m k : Nat) (hm : db.master = some m) (hpim : db.primaryInMaintence = false)
    (hne : db.readreplicas ≠ [])
    (hpick : db.readreplicas.getD
      ((db.count + 1) % (db.readreplicas.length : Int)).toNat none = some k) :
    QueryRow dvn db q = some ({ db with count := db.count + 1 }, some k, q) ∧
    QueryRow dvn db q2 = some ({ db with count := db.count + 1 }, some k, q2) ∧
    QueryRowContext dvn db false q =
      some ({ db with count := db.count + 1 }, some k, q) ∧
    QueryRowContext dvn db true q = some (db, some m, q) := by
  have hrr : readReplicaRoundRobin dvn db [true] =
      some ({ db with count := db.count + 1 },
        .ok (db.readreplicas.getD
          ((db.count + 1) % (db.readreplicas.length : Int)).toNat none)) := by
    unfold readReplicaRoundRobin
    have hlen0 : (db.readreplicas.length == 0) = false := by
      simp only [beq_eq_false_iff_ne, ne_eq, List.length_eq_zero]; exact hne
    rw [hlen0, Bool.and_false, if_neg (by simp)]
    rw [if_pos (by simp), helper_nonempty db hne]
  simp only [List.getD_eq_getElem?_getD] at hrr hpick
  refine ⟨?_, ?_, ?_, ?_⟩
  · simp [QueryRow, hrr, hpick, delegate]
  · simp [QueryRow, hrr, hpick, delegate]
  · simp [QueryRowContext, hrr, hpick, delegate]
  · simp [QueryRowContext, hm, hpim, delegate]

/-- C10 witness: on a router whose replicas are all unavailable, a write
query still goes through `QueryRow` to the round-robin pick, and the
force-primary form targets the primary. -/
theorem queryRow_no_validation_witness :
    QueryRow false dbTwoReplicasDown "delete from mytable".data =
      some ({ dbTwoReplicasDown with count := dbTwoReplicasDown.count + 1 },
        some 1, "delete from mytable".data) ∧
    QueryRow false dbTwoReplicasDown "select 1".data =
      some ({ dbTwoReplicasDown with count := dbTwoReplicasDown.count + 1 },
        some 1, "select 1".data) ∧
    QueryRowContext false dbTwoReplicasDown false "delete from mytable".data =
      some ({ dbTwoReplicasDown with count := dbTwoReplicasDown.count + 1 },
        some 1, "delete from mytable".data) ∧
    QueryRowContext false dbTwoReplicasDown true "delete from mytable".data =
      some (dbTwoReplicasDown, some 0, "delete from mytable".data) :=
  queryRow_no_validation false dbTwoReplicasDown "delete from mytable".data
    "select 1".data 0 1 rfl rfl (by decide) (by decide)

/-! ## The unavailable-set invariant -/

lemma contains_of_mem {l : List Conn} {x : Conn} (h : x ∈ l) :
    l.contains x = true := by
  simp only [List.contains]
  exact List.elem_iff.mpr h

/-- The helper changes neither the replica list nor the unavailable set. -/
lemma helper_fields (db db1 : DB) (r : Conn)
    (h : readReplicaRoundRobinHelper db = some (db1, r)) :
    db1.readreplicas = db.readreplicas ∧
    db1.unavailableReplicas = db.unavailableReplicas := by
  unfold readReplicaRoundRobinHelper at h
  split at h
  · simp at h
  · simp only [Option.some.injEq, Prod.mk.injEq] at h
    obtain ⟨h1, _⟩ := h
    rw [← h1]
    exact ⟨rfl, rfl⟩

/-- The selection loop changes neither the replica list nor the unavailable
set. -/
lemma rrLoop_fields :
    ∀ (k : Nat) (db db1 : DB) (r : Except Err Conn),
      rrLoop db k = some (db1, r) →
      db1.readreplicas = db.readreplicas ∧
      db1.unavailableReplicas = db.unavailableReplicas
  | 0, db, db1, r, h => by
      simp only [rrLoop, Option.some.injEq, Prod.mk.injEq] at h
      obtain ⟨h1, _⟩ := h
      rw [← h1]
      exact ⟨rfl, rfl⟩
  | k + 1, db, db1, r, h => by
      cases hh : readReplicaRoundRobinHelper db with
      | none =>
        simp only [rrLoop, hh] at h
        exact Option.noConfusion h
      | some x =>
        obtain ⟨dbm, rm⟩ := x
        simp only [rrLoop, hh] at h
        have hf := helper_fields db dbm rm hh
        by_cases hcond :
            (dbm.needHeartbeat && dbm.unavailableReplicas.contains rm) = true
        · rw [if_pos hcond] at h
          have hrec := rrLoop_fields k dbm db1 r h
          exact ⟨hrec.1.trans hf.1, hrec.2.trans hf.2⟩
        · rw [if_neg hcond] at h
          simp only [Option.some.injEq, Prod.mk.injEq] at h
          obtain ⟨h1, _⟩ := h
          rw [← h1]
          exact hf

/-- A selection changes neither the replica list nor the unavailable set. -/
lemma rr_fields (dvn : Bool) (db db1 : DB) (bypass : List Bool)
    (r : Except Err Conn)
    (h : readReplicaRoundRobin dvn db bypass = some (db1, r)) :
    db1.readreplicas = db.readreplicas ∧
    db1.unavailableReplicas = db.unavailableReplicas := by
  unfold readReplicaRoundRobin at h
  split at h
  · simp only [Option.some.injEq, Prod.mk.injEq] at h
    obtain ⟨h1, _⟩ := h
    rw [← h1]
    exact ⟨rfl, rfl⟩
  · split at h
    · cases hh : readReplicaRoundRobinHelper db with
      | none => rw [hh] at h; simp at h
      | some x =>
        obtain ⟨dbm, rm⟩ := x
        rw [hh] at h
        simp only [Option.some.injEq, Prod.mk.injEq] at h
        obtain ⟨h1, _⟩ := h
        rw [← h1]
        exact helper_fields db dbm rm hh
    · exact rrLoop_fields db.readreplicas.length db db1 r h

/-- C9: in every reachable router state the unavailable set contains only
handles of the configured replica list, and every monitor tick installs, as
the whole new value of the set, the result of one full health pass over the
configured replicas. -/
theorem unavailable_subset (dvn dsbl pim : Bool) (pingOK : Conn → Bool)
    (db : DB) (h : Reachable dvn dsbl pim db) :
    db.unavailableReplicas.all (fun r => db.readreplicas.contains r) = true ∧
    (monitorTick pingOK db).unavailableReplicas =
      heartbeat pingOK db.readreplicas := by
  refine ⟨?_, rfl⟩
  induction h with
  | init pingOK2 master rs res hnew =>
      unfold New at hnew
      split at hnew
      · simp at hnew
      · simp only [Except.ok.injEq] at hnew
        rw [← hnew]
        cases dsbl with
        | true => simp
        | false =>
          simp only [Bool.not_false]
          rw [List.all_eq_true]
          intro x hx
          simp only [if_pos rfl, heartbeat] at hx
          exact contains_of_mem (List.mem_of_mem_filter hx)
  | tick pingOK2 db2 h2 ih =>
      rw [List.all_eq_true]
      intro x hx
      simp only [monitorTick, heartbeat] at hx ⊢
      exact contains_of_mem (List.mem_of_mem_filter hx)
  | select db2 db3 bypass r h2 hs ih =>
      have hf := rr_fields dvn db2 db3 bypass r hs
      rw [hf.1, hf.2]
      exact ih

/-- C9 witness: the invariant at a freshly constructed one-replica router
whose replica fails its initial ping. -/
theorem unavailable_subset_witness :
    ([some 1, none] : List Conn).all
      (fun r => ([some 1, none] : List Conn).contains r) = true ∧
    (monitorTick (fun _ => false)
      { master := some 0, readreplicas := [some 1, none], count := -1,
        needHeartbeat := true, unavailableReplicas := [some 1, none],
        primaryInMaintence := false }).unavailableReplicas =
      heartbeat (fun _ => false) [some 1, none] :=
  unavailable_subset false false false (fun _ => false)
    { master := some 0, readreplicas := [some 1, none], count := -1,
      needHeartbeat := true, unavailableReplicas := [some 1, none],
      primaryInMaintence := false }
    (Reachable.init (fun _ => false) (some 0) [some 1, none]
      { db := { master := some 0, readreplicas := [some 1, none], count := -1,
                needHeartbeat := true, unavailableReplicas := [some 1, none],
                primaryInMaintence := false },
        tickerCreated := true } rfl)

end Gosqlrwdb
